import Mathlib

/-!
Verification of the generated-code execution pipeline of the
data-analyze-llm repository: the tabular data serializer
(llmService: generateDataFrameCreationCode / generateChunkedDataFrameCode /
generateOriginalDataFrameCode), the execution orchestrator
(pythonExecutor: executeAnalysis / executeComparison and the Python
result epilogues embedded in the generated scripts), the subprocess
execution engine (pythonExecutor: runPythonScript), and the Excel parser
(excelProcessor: processExcelFile).

The TypeScript and embedded Python code is shallowly embedded: JS arrays
become lists, JS cell values become the closed variant CellValue, the
filesystem becomes a list of existing paths, the event-driven engine
becomes a step function over an explicit run state, and JS numbers are
restricted to integers where cell values are serialized.
-/

set_option maxRecDepth 10000

/-- A spreadsheet cell value as it appears in the parsed JS data matrix:
JS null, JS undefined, a string, a number (restricted to integers in this
embedding), a boolean, or any other JS value carried by its
stringification String(val). -/
inductive CellValue where
  | vNull
  | vUndefined
  | vStr (s : String)
  | vNum (n : Int)
  | vBool (b : Bool)
  | vOther (stringified : String)
deriving DecidableEq, Repr

/-- One sheet of a parsed workbook, after types.ts ExcelData:
sheetName, headers, row-major data matrix, rowCount, columnCount. -/
structure ExcelData where
  sheetName : String
  headers : List String
  data : List (List CellValue)
  rowCount : Nat
  columnCount : Nat
deriving DecidableEq, Repr

/-- A parsed upload, after types.ts ProcessedData (the createdAt Date field
is omitted; no claim depends on it). -/
structure ProcessedData where
  id : String
  originalName : String
  sheets : List ExcelData
  summary : String
deriving DecidableEq, Repr

/-- Escaping of one character of a string cell, embedding the chain of
global single-character replaces in llmService
(backslash to double backslash, then single quote, double quote, newline,
carriage return and tab each to a backslash escape). The chained
String.prototype.replace calls act independently on distinct source
characters, none of which is produced by an earlier replace except the
backslash itself (handled first), so the chain equals this per-character
map. -/
def escapeChar (c : Char) : List Char :=
  if c = '\\' then ['\\', '\\']
  else if c = '\'' then ['\\', '\'']
  else if c = '"' then ['\\', '"']
  else if c = '\n' then ['\\', 'n']
  else if c = '\r' then ['\\', 'r']
  else if c = '\t' then ['\\', 't']
  else [c]

/-- Escape every character of a character list (the body of a string cell). -/
def escapeChars : List Char → List Char
  | [] => []
  | c :: cs => escapeChar c ++ escapeChars cs

/-- Escape a string cell for inclusion in a single-quoted Python literal,
as the serializer does. -/
def escapeValue (s : String) : String :=
  ⟨escapeChars s.data⟩

/-- Decoding of one escape pair under Python string-literal semantics:
the recognized escapes the serializer can emit. Returns none for an
escape Python would leave as backslash plus character. -/
def pyUnescapeChar (c : Char) : Option Char :=
  if c = '\\' then some '\\'
  else if c = '\'' then some '\''
  else if c = '"' then some '"'
  else if c = 'n' then some '\n'
  else if c = 'r' then some '\r'
  else if c = 't' then some '\t'
  else none

/-- Python string-literal decoding of a character sequence (the text
between the quotes of a single-quoted literal): backslash escape pairs are
decoded, unrecognized escapes are kept verbatim as Python does. -/
def pyDecodeChars : List Char → List Char
  | [] => []
  | [c] => [c]
  | c1 :: c2 :: rest =>
    if c1 = '\\' then
      match pyUnescapeChar c2 with
      | some d => d :: pyDecodeChars rest
      | none => c1 :: c2 :: pyDecodeChars rest
    else c1 :: pyDecodeChars (c2 :: rest)

/-- Python string-literal decoding on strings. -/
def pyDecode (s : String) : String :=
  ⟨pyDecodeChars s.data⟩

/-- The columnData normalization step of the serializer: cells that are
JS null, JS undefined or the empty string become null before rendering. -/
def normalizeCell (v : CellValue) : Option CellValue :=
  match v with
  | .vNull => none
  | .vUndefined => none
  | .vStr s => if s = "" then none else some (.vStr s)
  | w => some w

/-- The per-cell rendering step of the serializer pythonList map body:
null becomes None, strings become escaped single-quoted literals, numbers
their decimal text, booleans True or False, and anything else its
stringification escaped like a string. (The vNull and vUndefined arms are
unreachable after normalizeCell; they follow the JS fallback branch
String(val), which yields the texts null and undefined.) -/
def renderCell : Option CellValue → String
  | none => "None"
  | some (.vStr s) => "'" ++ escapeValue s ++ "'"
  | some (.vNum n) => toString n
  | some (.vBool true) => "True"
  | some (.vBool false) => "False"
  | some (.vOther r) => "'" ++ escapeValue r ++ "'"
  | some .vNull => "'" ++ escapeValue "null" ++ "'"
  | some .vUndefined => "'" ++ escapeValue "undefined" ++ "'"

/-- The complete per-cell encoding of the serializer: normalization
followed by rendering. -/
def encodeCell (v : CellValue) : String :=
  renderCell (normalizeCell v)

/-- JS Array.prototype.slice restricted to 0 ≤ start ≤ end, as used by
generateChunkedDataFrameCode: the elements from index start up to but
excluding index end. -/
def jsSlice (l : List α) (s e : Nat) : List α :=
  (l.drop s).take (e - s)

/-- The chunk size constant of generateChunkedDataFrameCode. -/
def chunkSize : Nat := 3000

/-- The chunking threshold shared by the serializer branch, the parser
sampling limit and the timeout policy. -/
def chunkThreshold : Nat := 5000

/-- The number of chunks computed by generateChunkedDataFrameCode:
Math.ceil(totalRows / chunkSize), which for natural totalRows is ceiling
division. -/
def numChunks (totalRows : Nat) : Nat :=
  (totalRows + (chunkSize - 1)) / chunkSize

/-- The row slices serialized by generateChunkedDataFrameCode: for each
chunkIndex below numChunks, startRow = chunkIndex * chunkSize,
endRow = min (startRow + chunkSize) totalRows, and the chunk rows are
sheet.data.slice(startRow, endRow). -/
def chunkSlices (data : List (List CellValue)) (totalRows : Nat) :
    List (List (List CellValue)) :=
  (List.range (numChunks totalRows)).map
    (fun chunkIndex =>
      jsSlice data (chunkIndex * chunkSize)
        (min (chunkIndex * chunkSize + chunkSize) totalRows))

/-- The shape of the construction code the serializer emits for one sheet:
either one direct DataFrame construction over the whole row list, or a
list of per-chunk constructions followed by the fixed pd.concat
reassembly epilogue. The constructors record exactly which row slices the
generated statements serialize; the surrounding fixed text (comments,
diagnostic prints, the concat line) carries no data. -/
inductive SheetCode where
  | original (rows : List (List CellValue))
  | chunked (chunks : List (List (List CellValue)))
deriving DecidableEq, Repr

/-- Embedding of generateChunkedDataFrameCode: the chunk row slices taken
from the sheet, in chunk order. -/
def generateChunkedDataFrameCode (sheet : ExcelData) : SheetCode :=
  .chunked (chunkSlices sheet.data sheet.rowCount)

/-- Embedding of generateOriginalDataFrameCode (equally of
generateSingleDataFrameCode): one construction over the whole row list,
with no chunk-reassembly logic. -/
def generateOriginalDataFrameCode (sheet : ExcelData) : SheetCode :=
  .original sheet.data

/-- Embedding of the per-sheet branch of generateDataFrameCreationCode:
the chunked construction is used exactly when sheet.rowCount > 5000. -/
def generateSheetConstruction (sheet : ExcelData) : SheetCode :=
  if sheet.rowCount > chunkThreshold then generateChunkedDataFrameCode sheet
  else generateOriginalDataFrameCode sheet

/-- Embedding of generateDataFrameCreationCode over a whole dataset: one
construction per sheet, in sheet order. -/
def generateDataFrameCreationCode (data : ProcessedData) : List SheetCode :=
  data.sheets.map generateSheetConstruction

/-- Embedding of the hasLargeSheets check in executeAnalysis:
data.sheets.some(sheet => sheet.rowCount > 5000). -/
def hasLargeSheets (data : ProcessedData) : Bool :=
  data.sheets.any (fun sheet => sheet.rowCount > chunkThreshold)

/-- Embedding of the timeout selection in executeAnalysis: 300000 ms for
large files, 120000 ms otherwise. -/
def analysisTimeoutMs (data : ProcessedData) : Nat :=
  if hasLargeSheets data then 300000 else 120000

/-- Embedding of the timeout passed by executeComparison to
runPythonScript: the constant 300000 ms, independent of the data. -/
def comparisonTimeoutMs : Nat := 300000

/-- Modelled from the spec (section 4.2): the claimed timeout selection
for every execution request over the sheets involved: extended 300 s when
any sheet exceeds the chunking threshold, standard 120 s otherwise. Used
only to compare the claimed policy with the code. -/
def specTimeoutMs (sheets : List ExcelData) : Nat :=
  if sheets.any (fun sheet => sheet.rowCount > chunkThreshold)
  then 300000 else 120000

/-- A concrete dataset whose single sheet is far below the threshold. -/
def smallDataset : ProcessedData :=
  { id := "d1"
    originalName := "small.xlsx"
    sheets := [{ sheetName := "Sheet1"
                 headers := ["h"]
                 data := [[CellValue.vNum 1]]
                 rowCount := 1
                 columnCount := 1 }]
    summary := "" }

/-- A JSON value, as produced by the Python json.dumps calls in the
generated result epilogues and parsed by JSON.parse in runPythonScript. -/
inductive JVal where
  | jNull
  | jBool (b : Bool)
  | jNum (n : Int)
  | jStr (s : String)
  | jArr (elems : List JVal)
  | jObj (fields : List (String × JVal))
deriving Repr

/-- Escaping of one character inside a json.dumps string literal,
restricted to the escapes exercised here (double quote, backslash,
newline, carriage return, tab); other control characters and the
ensure-ascii escaping of non-ASCII characters are not exercised by any
theorem below. -/
def jsonEscapeChar (c : Char) : List Char :=
  if c = '"' then ['\\', '"']
  else if c = '\\' then ['\\', '\\']
  else if c = '\n' then ['\\', 'n']
  else if c = '\r' then ['\\', 'r']
  else if c = '\t' then ['\\', 't']
  else [c]

/-- Escape every character of a json.dumps string literal body. -/
def jsonEscapeChars : List Char → List Char
  | [] => []
  | c :: cs => jsonEscapeChar c ++ jsonEscapeChars cs

/-- Escape a string for a json.dumps double-quoted literal. -/
def jsonEscape (s : String) : String :=
  ⟨jsonEscapeChars s.data⟩

mutual

/-- Compact single-line serialization of a JSON value, after Python
json.dumps with its default separators (comma-space between items,
colon-space after keys). -/
def dumps : JVal → String
  | .jNull => "null"
  | .jBool true => "true"
  | .jBool false => "false"
  | .jNum n => toString n
  | .jStr s => "\"" ++ jsonEscape s ++ "\""
  | .jArr elems => "[" ++ dumpsArr elems ++ "]"
  | .jObj fields => "\x7b" ++ dumpsObj fields ++ "\x7d"

/-- Serialization of array elements joined by comma-space. -/
def dumpsArr : List JVal → String
  | [] => ""
  | [v] => dumps v
  | v :: w :: rest => dumps v ++ ", " ++ dumpsArr (w :: rest)

/-- Serialization of object fields joined by comma-space. -/
def dumpsObj : List (String × JVal) → String
  | [] => ""
  | [(k, v)] => "\"" ++ jsonEscape k ++ "\": " ++ dumps v
  | (k, v) :: kv :: rest =>
    "\"" ++ jsonEscape k ++ "\": " ++ dumps v ++ ", " ++ dumpsObj (kv :: rest)

end

/-- Python string slicing s[:n], as used for result_json[:1000]. -/
def strTake (s : String) (n : Nat) : String :=
  ⟨s.data.take n⟩

/-- Embedding of the result epilogue appended by executeAnalysis to the
generated script: its input is the converted result value result_data
(the to_dict / tolist / str conversion happens before this point), or
none when the analysis code never assigned the result variable. With a
result, it serializes to result_json; above the 20000-character ceiling
it emits the result_too_large envelope whose truncated_result is the
first 1000 characters of result_json followed by the fixed marker;
otherwise it prints result_json itself. Without a result it prints
json.dumps applied to the bare string No result variable found. The
except branch around formatting is not modelled (no formatting step in
this embedding can raise). -/
def analysisEpilogue (result : Option JVal) : JVal :=
  match result with
  | none => .jStr "No result variable found"
  | some resultData =>
    let resultJson := dumps resultData
    if resultJson.length > 20000 then
      .jObj [("status", .jStr "result_too_large"),
             ("size", .jNum (resultJson.length : Int)),
             ("message", .jStr ("Result too large (" ++
               toString resultJson.length ++
               " chars). Please use summary statistics instead of detailed data.")),
             ("truncated_result",
              .jStr (strTake resultJson 1000 ++ "... [TRUNCATED]"))]
    else resultData

/-- Embedding of the result epilogue appended by executeComparison: with
a result it prints the serialized converted result (no size ceiling);
without one it prints the error envelope object. The except branch that
re-emits a raised exception as an error envelope is not modelled. -/
def comparisonEpilogue (result : Option JVal) : JVal :=
  match result with
  | none => .jObj [("error", .jStr "No result variable found"),
                   ("type", .jStr "analysis_error")]
  | some resultData => resultData

/-- Whether a JSON value is an object carrying an error field. -/
def hasErrorField : JVal → Bool
  | .jObj fields => fields.any (fun kv => kv.1 == "error")
  | _ => false

/-- A concrete 20001-character string result, used to drive the epilogue
past the 20000-character ceiling. -/
def bigResultStr : String :=
  ⟨List.replicate 20001 (Char.ofNat 97)⟩

/-- The full serialization of the big string result. -/
def fullBigJson : String :=
  dumps (.jStr bigResultStr)

/-- The truncated_result value the epilogue emits for the big result. -/
def truncBig : String :=
  strTake fullBigJson 1000 ++ "... [TRUNCATED]"

/-- Decimal digits to a natural number, most significant first. -/
def digitsToNat : List Char → Nat → Nat
  | [], acc => acc
  | c :: rest, acc => digitsToNat rest (acc * 10 + (c.toNat - 48))

/-- A partial, executable model of JSON.parse restricted to whole-line
literal tokens (null, true, false, non-negative integer numerals); none
models the SyntaxError JSON.parse throws on a non-JSON line. Composite
JSON texts are not needed by any theorem below; the extraction theorems
hold for every parse function. -/
def jsonParseModel (s : String) : Option JVal :=
  if s = "null" then some .jNull
  else if s = "true" then some (.jBool true)
  else if s = "false" then some (.jBool false)
  else if !s.data.isEmpty && s.data.all Char.isDigit then
    some (.jNum (digitsToNat s.data 0 : Int))
  else none

/-- The backward scan loop of runPythonScript over the output lines: the
JS loop walks the line array from the last index down, assigns
jsonResult on the first successful JSON.parse and breaks; jsonResult is
initialized to JS null, which is the same value as parsed JSON null —
that conflation is kept here by returning the null value both for a
parsed null and for no successful parse. This function consumes the
reversed line list (front = last line). -/
def scanForJson (parse : String → Option JVal) : List String → JVal
  | [] => .jNull
  | line :: rest =>
    match parse line with
    | some v => v
    | none => scanForJson parse rest

/-- The JS check jsonResult !== null, as a test on the scan result. -/
def isNullVal : JVal → Bool
  | .jNull => true
  | _ => false

/-- Model of String.prototype.trim: drop whitespace characters from both
ends of the string. -/
def jsTrim (s : String) : String :=
  ⟨((s.data.dropWhile Char.isWhitespace).reverse.dropWhile
      Char.isWhitespace).reverse⟩

/-- Model of String.prototype.split with separator newline, at the
character-list level. -/
def jsSplitNewline (s : String) : List String :=
  (s.data.splitOn (Char.ofNat 10)).map (fun cs => ⟨cs⟩)

/-- Embedding of the clean-exit result extraction of runPythonScript:
trim the captured stdout, split on newlines, scan backward for the first
line JSON.parse accepts, resolve its parsed value when it is non-null,
and otherwise resolve the whole trimmed output text. -/
def extractResult (parse : String → Option JVal) (stdout : String) :
    Sum JVal String :=
  let trimmed := jsTrim stdout
  let lines := jsSplitNewline trimmed
  let jsonResult := scanForJson parse lines.reverse
  if isNullVal jsonResult then .inr trimmed else .inl jsonResult

/-- A terminal outcome of one runPythonScript run: the resolved value on
clean exit, or the rejection reasons (non-zero exit, timeout, spawn
failure). -/
inductive Outcome where
  | completed (value : Sum JVal String)
  | execFailed (exitCode : Option Int) (stderr : String)
  | timedOut (timeoutMs : Nat)
  | spawnFailed (message : String)

/-- The mutable state of one runPythonScript run: the promise settlement
(none while pending; a settled promise ignores later resolve and reject
calls), the isTimedOut flag, whether the one-shot timeout timer is still
armed (cleared by the close and error handlers, disarmed by firing), and
the accumulated stdout and stderr text. -/
structure RunState where
  settled : Option Outcome
  isTimedOut : Bool
  timerActive : Bool
  stdout : String
  stderr : String

/-- The state before any event: pending promise, flags clear, timer
armed, empty output buffers. -/
def initRunState : RunState :=
  { settled := none, isTimedOut := false, timerActive := true
    stdout := "", stderr := "" }

/-- The observable events of one run: stdout and stderr data chunks, the
timeout timer firing, the close notification with the exit code (null
when the process never ran), and the spawn error notification. -/
inductive RunEvent where
  | stdoutData (chunk : String)
  | stderrData (chunk : String)
  | timeoutFire
  | closeEv (code : Option Int)
  | errorEv (message : String)

/-- Promise settlement: the first resolve or reject call wins; calls on
an already settled promise change nothing. -/
def settle (s : RunState) (o : Outcome) : RunState :=
  if s.settled.isSome then s else { s with settled := some o }

/-- One event handler step of runPythonScript: data events append to the
buffers; the timeout handler (only reachable while the timer is armed)
sets isTimedOut, kills the process and rejects with the timeout error;
the close handler returns immediately when isTimedOut is set, otherwise
clears the timers and rejects on a non-zero code or resolves with the
extracted result; the error handler returns immediately when isTimedOut
is set and otherwise rejects with the spawn failure. -/
def runStep (parse : String → Option JVal) (timeoutMs : Nat)
    (s : RunState) : RunEvent → RunState
  | .stdoutData chunk => { s with stdout := s.stdout ++ chunk }
  | .stderrData chunk => { s with stderr := s.stderr ++ chunk }
  | .timeoutFire =>
    if s.timerActive then
      settle { s with isTimedOut := true, timerActive := false }
        (.timedOut timeoutMs)
    else s
  | .closeEv code =>
    if s.isTimedOut then s
    else
      let s1 := { s with timerActive := false }
      if code ≠ some 0 then settle s1 (.execFailed code s1.stderr)
      else settle s1 (.completed (extractResult parse s1.stdout))
  | .errorEv message =>
    if s.isTimedOut then s
    else settle { s with timerActive := false } (.spawnFailed message)

/-- The error values an execution request can propagate: a script
generation failure, the runPythonScript rejections, or a filesystem
unlink failure. -/
inductive ExecError where
  | genFailed (message : String)
  | timedOut (timeoutMs : Nat)
  | execFailed (exitCode : Option Int) (stderr : String)
  | spawnFailed (message : String)
  | unlinkFailed (path : String)

/-- The filesystem as the set of existing paths; writeFileSync makes the
path exist. -/
def fsWrite (fs : List String) (path : String) : List String :=
  if path ∈ fs then fs else path :: fs

/-- fs.existsSync on the path-set model. -/
def fsExists (fs : List String) (path : String) : Bool :=
  fs.contains path

/-- fs.unlinkSync on the path-set model; the unlinkFails parameter marks
paths whose deletion throws (permission error, removal race, ...). -/
def fsUnlink (unlinkFails : String → Bool) (fs : List String)
    (path : String) : Except ExecError (List String) :=
  if unlinkFails path then .error (.unlinkFailed path)
  else .ok (fs.filter (fun q => q != path))

/-- The catch block shared by executeAnalysis and executeComparison: if
the script file exists it is unlinked (an unlink throw propagates that
error instead and leaves the file), then the triggering error is
rethrown. -/
def cleanupOnError (unlinkFails : String → Bool) (scriptPath : String)
    (err : ExecError) (fs : List String) :
    Except ExecError (Sum JVal String) × List String :=
  if fsExists fs scriptPath then
    match fsUnlink unlinkFails fs scriptPath with
    | .error e2 => (.error e2, fs)
    | .ok fs2 => (.error err, fs2)
  else (.error err, fs)

/-- Embedding of the control flow of executeAnalysis: generate the
DataFrame code (gen; an LLM call that can throw), write the script file,
run it (run; the runPythonScript outcome — the timeout passed is
analysisTimeoutMs of the data, settled separately by the timeout-policy
theorems), unlink on success, and on any thrown error run the catch
block. The script path is a parameter (the code derives it from
Date.now(); uniqueness is outside this model), and file contents are
irrelevant to the lifecycle, so the filesystem tracks paths only. -/
def executeAnalysisModel (unlinkFails : String → Bool) (scriptPath : String)
    (gen : Except ExecError String)
    (run : Except ExecError (Sum JVal String))
    (fs0 : List String) : Except ExecError (Sum JVal String) × List String :=
  match gen with
  | .error e => cleanupOnError unlinkFails scriptPath e fs0
  | .ok _dataFrameCode =>
    let fs1 := fsWrite fs0 scriptPath
    match run with
    | .error e => cleanupOnError unlinkFails scriptPath e fs1
    | .ok result =>
      match fsUnlink unlinkFails fs1 scriptPath with
      | .error e => cleanupOnError unlinkFails scriptPath e fs1
      | .ok fs2 => (.ok result, fs2)

/-- Embedding of the control flow of executeComparison, which duplicates
the executeAnalysis lifecycle (with the comparison generator and the
constant 300000 ms timeout). -/
def executeComparisonModel (unlinkFails : String → Bool) (scriptPath : String)
    (gen : Except ExecError String)
    (run : Except ExecError (Sum JVal String))
    (fs0 : List String) : Except ExecError (Sum JVal String) × List String :=
  match gen with
  | .error e => cleanupOnError unlinkFails scriptPath e fs0
  | .ok _dataFrameCode =>
    let fs1 := fsWrite fs0 scriptPath
    match run with
    | .error e => cleanupOnError unlinkFails scriptPath e fs1
    | .ok result =>
      match fsUnlink unlinkFails fs1 scriptPath with
      | .error e => cleanupOnError unlinkFails scriptPath e fs1
      | .ok fs2 => (.ok result, fs2)

/-- The header cast (jsonData[0] as string[]) of processExcelFile: under
the raw:false parse options cells arrive as strings, so the cast reads
the string content (non-string cells, which the cast would pass through
untyped, are not distinguished by any theorem below). -/
def headerName : CellValue → String
  | .vStr s => s
  | _ => ""

/-- Embedding of the per-sheet body of processExcelFile: skip an empty
sheet, take the first row as headers, and cap the data rows at 5000 by
slicing (rows past the first 5000 are discarded); rowCount and
columnCount record the resulting lengths. -/
def processSheetModel (sheetName : String)
    (jsonData : List (List CellValue)) : Option ExcelData :=
  match jsonData with
  | [] => none
  | headerRow :: rest =>
    let headers := headerRow.map headerName
    let data := if rest.length > 5000 then rest.take 5000 else rest
    some { sheetName := sheetName
           headers := headers
           data := data
           rowCount := data.length
           columnCount := headers.length }

/-- The summary string built by generateSummary. -/
def generateSummary (sheets : List ExcelData) : String :=
  "File contains " ++ toString sheets.length ++ " sheet(s): " ++
  String.intercalate (", ") (sheets.map (fun s => s.sheetName)) ++
  ". Total rows: " ++
  toString (sheets.foldl (fun acc s => acc + s.rowCount) 0)

/-- Embedding of processExcelFile over a workbook given as named sheets
of raw rows: each sheet goes through processSheetModel (empty sheets are
skipped), and the ProcessedData carries the generated summary (the id is
a parameter; the code derives it from Date.now and Math.random). -/
def processExcelFileModel (id originalName : String)
    (workbook : List (String × List (List CellValue))) : ProcessedData :=
  let sheets := workbook.filterMap
    (fun namedRows => processSheetModel namedRows.1 namedRows.2)
  { id := id
    originalName := originalName
    sheets := sheets
    summary := generateSummary sheets }

/-- A concrete sheet above the chunking threshold, used as witness input. -/
def bigSheet : ExcelData :=
  { sheetName := "s"
    headers := ["h"]
    data := List.replicate 5001 [CellValue.vNum 1]
    rowCount := 5001
    columnCount := 1 }

-- Theorems

/-- Helper: decoding a character list headed by a plain (non-backslash)
character keeps that character and decodes the rest. -/
theorem pyDecodeChars_cons_of_ne (c : Char) (h : c ≠ '\\')
    (rest : List Char) :
    pyDecodeChars (c :: rest) = c :: pyDecodeChars rest := by
  cases rest with
  | nil => simp [pyDecodeChars]
  | cons d ds => simp [pyDecodeChars, h]

/-- Helper: escaping one character then decoding it at the head of a
decode recursion restores the character. -/
theorem pyDecodeChars_escapeChar_append (c : Char) (cs : List Char)
    (ih : pyDecodeChars (escapeChars cs) = cs) :
    pyDecodeChars (escapeChar c ++ escapeChars cs) = c :: cs := by
  by_cases h1 : c = '\\'
  · subst h1; simp [escapeChar, pyDecodeChars, pyUnescapeChar, ih]
  · by_cases h2 : c = '\''
    · subst h2; simp [escapeChar, pyDecodeChars, pyUnescapeChar, ih]
    · by_cases h3 : c = '"'
      · subst h3; simp [escapeChar, pyDecodeChars, pyUnescapeChar, ih]
      · by_cases h4 : c = '\n'
        · subst h4; simp [escapeChar, pyDecodeChars, pyUnescapeChar, ih]
        · by_cases h5 : c = '\r'
          · subst h5; simp [escapeChar, pyDecodeChars, pyUnescapeChar, ih]
          · by_cases h6 : c = '\t'
            · subst h6; simp [escapeChar, pyDecodeChars, pyUnescapeChar, ih]
            · simp only [escapeChar, h1, h2, h3, h4, h5, h6, if_false,
                List.singleton_append]
              rw [pyDecodeChars_cons_of_ne c h1, ih]

/-- Round trip: decoding the serializer escaping of any character list
under Python string-literal semantics restores the original characters. -/
theorem pyDecodeChars_escapeChars (cs : List Char) :
    pyDecodeChars (escapeChars cs) = cs := by
  induction cs with
  | nil => rfl
  | cons c cs ih =>
    simpa [escapeChars] using pyDecodeChars_escapeChar_append c cs ih

/-- C4: the per-cell encoding follows the fixed mapping (null, undefined
and empty-string cells become None; numbers become numeric literals;
booleans become True/False; strings and other values become escaped
single-quoted literals), and decoding the escaped literal body under
Python string-literal semantics restores the original string exactly. -/
theorem c4_cell_encoding :
    (encodeCell .vNull = "None") ∧
    (encodeCell .vUndefined = "None") ∧
    (encodeCell (.vStr "") = "None") ∧
    (∀ s : String, s ≠ "" →
      encodeCell (.vStr s) = "'" ++ escapeValue s ++ "'") ∧
    (∀ n : Int, encodeCell (.vNum n) = toString n) ∧
    (∀ b : Bool, encodeCell (.vBool b) = if b then "True" else "False") ∧
    (∀ r : String, encodeCell (.vOther r) = "'" ++ escapeValue r ++ "'") ∧
    (∀ s : String, pyDecode (escapeValue s) = s) := by
  refine ⟨rfl, rfl, rfl, ?_, fun n => rfl, ?_, fun r => rfl, ?_⟩
  · intro s hs
    simp [encodeCell, normalizeCell, renderCell, hs]
  · intro b
    cases b <;> rfl
  · intro s
    show String.mk (pyDecodeChars (String.mk (escapeChars s.data)).data) = s
    cases s with
    | mk data => exact congrArg String.mk (pyDecodeChars_escapeChars data)

/-- Witness for C4 at a concrete non-empty string containing a newline. -/
theorem c4_cell_encoding_witness :
    encodeCell (.vStr "a\nb") = "'" ++ escapeValue ("a\nb") ++ "'" :=
  c4_cell_encoding.2.2.2.1 ("a\nb") (by decide)

/-- Helper: the slice bounds used by generateChunkedDataFrameCode reduce
to take-of-drop when totalRows is the length of the row list. -/
theorem jsSlice_chunk (l : List α) (i c : Nat) :
    jsSlice l (i * c) (min (i * c + c) l.length) = (l.drop (i * c)).take c := by
  unfold jsSlice
  rcases le_or_lt (i * c + c) l.length with h | h
  · rw [min_eq_left h]
    congr 1
    omega
  · rw [min_eq_right (le_of_lt h)]
    have hlen : (l.drop (i * c)).length = l.length - i * c := List.length_drop _ _
    have h1 : (l.drop (i * c)).length ≤ l.length - i * c := le_of_eq hlen
    have h2 : (l.drop (i * c)).length ≤ c := by omega
    rw [List.take_of_length_le h1, List.take_of_length_le h2]

/-- Helper: joining k consecutive take-of-drop chunks of width c yields
the first k * c elements. -/
theorem join_consecutive_chunks (c : Nat) (l : List α) (k : Nat) :
    ((List.range k).map (fun i => (l.drop (i * c)).take c)).flatten
      = l.take (k * c) := by
  induction k with
  | zero => simp
  | succ k ih =>
    rw [List.range_succ, List.map_append, List.flatten_append, ih]
    simp only [List.map_cons, List.map_nil, List.flatten_cons, List.flatten_nil,
      List.append_nil]
    rw [← List.take_add, Nat.succ_mul]

/-- Helper: the chunk arithmetic of generateChunkedDataFrameCode covers
the full row list: concatenating the chunk slices in chunk order equals
the original row list. -/
theorem chunkSlices_join (data : List (List CellValue)) :
    (chunkSlices data data.length).flatten = data := by
  unfold chunkSlices
  simp only [jsSlice_chunk]
  rw [join_consecutive_chunks]
  have hcover : data.length ≤ numChunks data.length * chunkSize := by
    unfold numChunks chunkSize
    omega
  exact List.take_of_length_le hcover

/-- C3: the serializer emits the chunked construction if and only if the
sheet's row count exceeds the 5000-row threshold (at or below it, the
construction is the single original form with no chunk reassembly); in
the chunked case the rows split into consecutive chunks of 3000 rows
(every chunk except possibly the last is exactly 3000 rows) and the
concatenation of the chunk slices in chunk order equals the original row
sequence exactly, for any number of chunks. -/
theorem c3_serializer_chunking (sheet : ExcelData)
    (hrc : sheet.rowCount = sheet.data.length) :
    (sheet.rowCount ≤ chunkThreshold →
      generateSheetConstruction sheet = .original sheet.data) ∧
    (chunkThreshold < sheet.rowCount →
      generateSheetConstruction sheet =
        .chunked (chunkSlices sheet.data sheet.rowCount) ∧
      (chunkSlices sheet.data sheet.rowCount).flatten = sheet.data ∧
      (chunkSlices sheet.data sheet.rowCount).length
        = numChunks sheet.rowCount ∧
      (∀ ch ∈ chunkSlices sheet.data sheet.rowCount,
        ch.length ≤ chunkSize) ∧
      (∀ i, i + 1 < numChunks sheet.rowCount →
        ∀ ch, (chunkSlices sheet.data sheet.rowCount)[i]? = some ch →
          ch.length = chunkSize)) := by
  constructor
  · intro h
    unfold generateSheetConstruction
    rw [if_neg (by omega)]
    rfl
  · intro h
    refine ⟨?_, ?_, ?_, ?_, ?_⟩
    · unfold generateSheetConstruction
      rw [if_pos h]
      rfl
    · rw [hrc]
      exact chunkSlices_join sheet.data
    · simp [chunkSlices]
    · intro ch hch
      rw [hrc] at hch
      simp only [chunkSlices, List.mem_map, List.mem_range] at hch
      obtain ⟨i, hi, rfl⟩ := hch
      rw [jsSlice_chunk]
      exact List.length_take_le _ _
    · intro i hi ch hch
      rw [hrc] at hi hch
      have hik : i < numChunks sheet.data.length := by omega
      have hbound : i * chunkSize + chunkSize ≤ sheet.data.length := by
        unfold numChunks at hi
        unfold chunkSize at hi ⊢
        omega
      simp only [chunkSlices, List.getElem?_map, List.getElem?_range hik,
        Option.map_some', Option.some.injEq] at hch
      rw [jsSlice_chunk] at hch
      rw [← hch]
      simp only [List.length_take, List.length_drop]
      omega

/-- Witness for C3: the concrete 5001-row sheet takes the chunked branch
and its chunk slices reassemble to the original rows. -/
theorem c3_serializer_chunking_witness :
    generateSheetConstruction bigSheet =
      .chunked (chunkSlices bigSheet.data bigSheet.rowCount) ∧
    (chunkSlices bigSheet.data bigSheet.rowCount).flatten = bigSheet.data :=
  ⟨((c3_serializer_chunking bigSheet
      (by show 5001 = (List.replicate 5001 [CellValue.vNum 1]).length
          rw [List.length_replicate])).2 (by decide)).1,
   ((c3_serializer_chunking bigSheet
      (by show 5001 = (List.replicate 5001 [CellValue.vNum 1]).length
          rw [List.length_replicate])).2 (by decide)).2.1⟩

/-- C6 (amended): executeAnalysis selects 300000 ms exactly when some
sheet exceeds the 5000-row threshold and 120000 ms otherwise, while
executeComparison always passes the constant 300000 ms regardless of the
sheets involved. -/
theorem c6_timeout_policy (data : ProcessedData) :
    (analysisTimeoutMs data = 300000 ↔ hasLargeSheets data = true) ∧
    (analysisTimeoutMs data = 120000 ↔ hasLargeSheets data = false) ∧
    (hasLargeSheets data = true ↔
      ∃ sheet ∈ data.sheets, sheet.rowCount > chunkThreshold) ∧
    comparisonTimeoutMs = 300000 := by
  refine ⟨?_, ?_, by simp [hasLargeSheets], rfl⟩
  · unfold analysisTimeoutMs
    cases h : hasLargeSheets data <;> simp [h]
  · unfold analysisTimeoutMs
    cases h : hasLargeSheets data <;> simp [h]

/-- Counterexample to C6 as stated: for a comparison request over two
small datasets (no sheet above the threshold), the claimed policy picks
the standard 120 s timeout, but executeComparison passes 300000 ms. -/
theorem c6_counterexample :
    comparisonTimeoutMs = 300000 ∧
    specTimeoutMs (smallDataset.sheets ++ smallDataset.sheets) = 120000 ∧
    comparisonTimeoutMs ≠ specTimeoutMs (smallDataset.sheets ++ smallDataset.sheets) :=
  ⟨rfl, by decide, by decide⟩

/-- Counterexample to C9 as stated: when no result variable was assigned,
the single-file analysis epilogue prints the bare JSON string
No result variable found, not an object carrying an error field. -/
theorem c9_counterexample :
    analysisEpilogue none = .jStr "No result variable found" ∧
    hasErrorField (analysisEpilogue none) = false ∧
    hasErrorField (comparisonEpilogue none) = true :=
  ⟨rfl, rfl, rfl⟩

/-- C9 (amended): without a result variable, the comparison epilogue
emits the explicit error envelope object, while the single-file analysis
epilogue emits the bare JSON string No result variable found. -/
theorem c9_no_result_envelope :
    comparisonEpilogue none =
      .jObj [("error", .jStr "No result variable found"),
             ("type", .jStr "analysis_error")] ∧
    hasErrorField (comparisonEpilogue none) = true ∧
    analysisEpilogue none = .jStr "No result variable found" ∧
    hasErrorField (analysisEpilogue none) = false :=
  ⟨rfl, rfl, rfl, rfl⟩

/-- Helper: json.dumps escaping leaves a run of lowercase a characters
unchanged. -/
theorem jsonEscapeChars_replicate_a (n : Nat) :
    jsonEscapeChars (List.replicate n (Char.ofNat 97))
      = List.replicate n (Char.ofNat 97) := by
  induction n with
  | zero => rfl
  | succ n ih =>
    rw [List.replicate_succ]
    simp only [jsonEscapeChars]
    rw [ih]
    have ha : jsonEscapeChar (Char.ofNat 97) = [Char.ofNat 97] := by decide
    rw [ha, List.singleton_append, ← List.replicate_succ]

/-- Helper: the characters of the serialized big string result are a
double quote, 20001 a characters, and a closing double quote. -/
theorem fullBigJson_data :
    fullBigJson.data
      = '"' :: (List.replicate 20001 (Char.ofNat 97) ++ ['"']) := by
  have h1 : fullBigJson = "\"" ++ jsonEscape bigResultStr ++ "\"" := by
    show dumps (.jStr bigResultStr) = _
    simp [dumps]
  have h2 : jsonEscape bigResultStr
      = (⟨List.replicate 20001 (Char.ofNat 97)⟩ : String) :=
    congrArg String.mk (jsonEscapeChars_replicate_a 20001)
  rw [h1, h2]
  rw [String.data_append, String.data_append]
  have hq : ("\"" : String).data = ['"'] := rfl
  have hmk : (⟨List.replicate 20001 (Char.ofNat 97)⟩ : String).data
      = List.replicate 20001 (Char.ofNat 97) := rfl
  rw [hq, hmk, List.append_assoc, List.singleton_append]

/-- Helper: the serialized big string result has 20003 characters,
exceeding the 20000-character ceiling. -/
theorem fullBigJson_length : fullBigJson.length = 20003 := by
  show fullBigJson.data.length = 20003
  rw [fullBigJson_data, List.length_cons, List.length_append,
    List.length_replicate]
  norm_num

/-- Counterexample to C7 as stated: for the 20001-character string
result, the epilogue emits the result_too_large envelope, but its
truncated_result (the first 1000 characters of the serialization
followed by the fixed marker) is not a prefix of the full serialization,
hence not a strict prefix of it. -/
theorem c7_counterexample :
    analysisEpilogue (some (.jStr bigResultStr)) =
      .jObj [("status", .jStr "result_too_large"),
             ("size", .jNum (fullBigJson.length : Int)),
             ("message", .jStr ("Result too large (" ++
               toString fullBigJson.length ++
               " chars). Please use summary statistics instead of detailed data.")),
             ("truncated_result", .jStr truncBig)] ∧
    ¬ (truncBig.data <+: fullBigJson.data) := by
  have hcond : (dumps (JVal.jStr bigResultStr)).length > 20000 := by
    have h : (dumps (JVal.jStr bigResultStr)).length = 20003 :=
      fullBigJson_length
    omega
  constructor
  · simp only [analysisEpilogue]
    rw [if_pos hcond]
    unfold fullBigJson truncBig
    rfl
  · intro hp
    obtain ⟨t, ht⟩ := hp
    have hdata : truncBig.data
        = fullBigJson.data.take 1000 ++ ("... [TRUNCATED]" : String).data := by
      show (strTake fullBigJson 1000 ++ ("... [TRUNCATED]" : String)).data = _
      rw [String.data_append]
      rfl
    have hdrop : fullBigJson.data.drop 1000
        = List.replicate 19002 (Char.ofNat 97) ++ ['"'] := by
      rw [fullBigJson_data]
      rw [show (1000 : Nat) = 999 + 1 from rfl, List.drop_succ_cons,
        List.drop_append_of_le_length (by rw [List.length_replicate]; omega),
        List.drop_replicate]
    have hkey : fullBigJson.data.take 1000
          ++ (("... [TRUNCATED]" : String).data ++ t)
        = fullBigJson.data.take 1000 ++ fullBigJson.data.drop 1000 := by
      rw [← List.append_assoc, ← hdata, ht, List.take_append_drop]
    have hcancel := List.append_cancel_left hkey
    rw [hdrop,
      show (19002 : Nat) = 19001 + 1 from rfl, List.replicate_succ,
      List.cons_append] at hcancel
    have hcc : ('.' : Char) = Char.ofNat 97 :=
      ((List.cons.injEq _ _ _ _).mp hcancel).1
    exact absurd hcc (by decide)

/-- C7 (amended): whenever the serialized result exceeds the
20000-character ceiling, the epilogue emits the result_too_large
envelope whose truncated_result is the first 1000 characters of the full
serialization followed by the fixed marker text; those first 1000
characters are a strict prefix of the full serialization. -/
theorem c7_truncation_envelope (r : JVal) (h : 20000 < (dumps r).length) :
    analysisEpilogue (some r) =
      .jObj [("status", .jStr "result_too_large"),
             ("size", .jNum ((dumps r).length : Int)),
             ("message", .jStr ("Result too large (" ++
               toString (dumps r).length ++
               " chars). Please use summary statistics instead of detailed data.")),
             ("truncated_result",
              .jStr (strTake (dumps r) 1000 ++ "... [TRUNCATED]"))] ∧
    (strTake (dumps r) 1000).data <+: (dumps r).data ∧
    strTake (dumps r) 1000 ≠ dumps r := by
  refine ⟨?_, ?_, ?_⟩
  · simp only [analysisEpilogue]
    rw [if_pos (by omega)]
  · show (dumps r).data.take 1000 <+: (dumps r).data
    exact List.take_prefix _ _
  · intro he
    have hlen := congrArg String.length he
    have hl : (strTake (dumps r) 1000).length = min 1000 (dumps r).length := by
      show ((dumps r).data.take 1000).length = _
      exact List.length_take _ _
    rw [hl] at hlen
    omega

/-- Witness for C7 (amended) at the concrete oversized string result. -/
theorem c7_truncation_envelope_witness :
    (strTake (dumps (.jStr bigResultStr)) 1000).data
      <+: (dumps (.jStr bigResultStr)).data ∧
    strTake (dumps (.jStr bigResultStr)) 1000 ≠ dumps (.jStr bigResultStr) :=
  ⟨(c7_truncation_envelope (.jStr bigResultStr)
      (by have h : (dumps (JVal.jStr bigResultStr)).length = 20003 :=
            fullBigJson_length
          omega)).2.1,
   (c7_truncation_envelope (.jStr bigResultStr)
      (by have h : (dumps (JVal.jStr bigResultStr)).length = 20003 :=
            fullBigJson_length
          omega)).2.2⟩

/-- Helper: the backward scan loop equals the first successful parse of
the (reversed) line list, with the null value as default. -/
theorem scanForJson_eq_findSome (parse : String → Option JVal)
    (l : List String) :
    scanForJson parse l = (l.findSome? parse).getD .jNull := by
  induction l with
  | nil => rfl
  | cons a l ih =>
    cases h : parse a with
    | some v => simp [scanForJson, List.findSome?_cons, h]
    | none => simp [scanForJson, List.findSome?_cons, h, ih]

/-- Helper: the null test recognizes exactly the null value. -/
theorem isNullVal_eq_true_iff (v : JVal) : isNullVal v = true ↔ v = .jNull := by
  cases v <;> simp [isNullVal]

/-- Counterexample to C2 as stated: the single output line null parses
successfully as JSON (to the null value), yet the engine resolves the
trimmed output text instead of the parsed value, because the JS code
reuses null both as the parsed result and as the not-found sentinel. -/
theorem c2_counterexample :
    jsonParseModel ("null") = some .jNull ∧
    extractResult jsonParseModel ("null") = .inr ("null") ∧
    (Sum.inr ("null") : Sum JVal String) ≠ Sum.inl .jNull :=
  ⟨rfl, rfl, fun h => Sum.noConfusion h⟩

/-- C2 (amended): on clean exit the engine splits the trimmed stdout
into lines and scans them from the last line backward for the first line
that parses as JSON; it resolves that parsed value when it is not the
JSON null value; if that value is null, or no line parses as JSON, it
resolves the whole trimmed output text instead. Stated for every parse
function and every captured output. -/
theorem c2_backward_scan (parse : String → Option JVal) (stdout : String) :
    (∀ v : JVal,
      (jsSplitNewline (jsTrim stdout)).reverse.findSome? parse = some v →
      v ≠ .jNull →
      extractResult parse stdout = .inl v) ∧
    ((jsSplitNewline (jsTrim stdout)).reverse.findSome? parse = some .jNull →
      extractResult parse stdout = .inr (jsTrim stdout)) ∧
    ((jsSplitNewline (jsTrim stdout)).reverse.findSome? parse = none →
      extractResult parse stdout = .inr (jsTrim stdout)) := by
  refine ⟨?_, ?_, ?_⟩
  · intro v hfind hv
    simp only [extractResult, scanForJson_eq_findSome, hfind, Option.getD_some]
    rw [if_neg]
    intro hn
    exact hv ((isNullVal_eq_true_iff v).mp hn)
  · intro hfind
    simp only [extractResult, scanForJson_eq_findSome, hfind, Option.getD_some]
    simp [isNullVal]
  · intro hfind
    simp only [extractResult, scanForJson_eq_findSome, hfind, Option.getD_none]
    simp [isNullVal]

/-- Witness for C2 (amended): two lines, a progress message then the
numeral 42; the engine resolves the parsed 42. -/
theorem c2_backward_scan_witness :
    extractResult jsonParseModel ("Starting analysis...\n42")
      = .inl (.jNum 42) :=
  (c2_backward_scan jsonParseModel ("Starting analysis...\n42")).1
    (.jNum 42) (by rfl) (fun h => JVal.noConfusion h)

/-- Helper: settling never changes the isTimedOut flag. -/
theorem settle_isTimedOut (s : RunState) (o : Outcome) :
    (settle s o).isTimedOut = s.isTimedOut := by
  unfold settle
  split <;> rfl

/-- Helper: settling a pending state records the outcome. -/
theorem settle_of_none (s : RunState) (o : Outcome) (h : s.settled = none) :
    (settle s o).settled = some o := by
  simp [settle, h]

/-- Helper: the close handler returns the state unchanged once the
isTimedOut flag is set. -/
theorem runStep_close_of_timedOut (parse : String → Option JVal)
    (tm : Nat) (st : RunState) (code : Option Int)
    (h : st.isTimedOut = true) :
    runStep parse tm st (.closeEv code) = st := by
  simp only [runStep, h, if_true]

/-- Helper: no event handler changes an already settled outcome; the
promise ignores further resolve and reject calls and the handlers guard
on isTimedOut. -/
theorem runStep_preserves_settled (parse : String → Option JVal)
    (tm : Nat) (s : RunState) (o : Outcome) (h : s.settled = some o)
    (e : RunEvent) : (runStep parse tm s e).settled = some o := by
  cases e with
  | stdoutData c => simpa [runStep] using h
  | stderrData c => simpa [runStep] using h
  | timeoutFire =>
    simp only [runStep]
    split
    · simp [settle, h]
    · exact h
  | closeEv code =>
    simp only [runStep]
    split
    · exact h
    · split <;> simp [settle, h]
  | errorEv m =>
    simp only [runStep]
    split
    · exact h
    · simp [settle, h]

/-- Helper: over any event sequence, a settled outcome persists. -/
theorem runSteps_preserve_settled (parse : String → Option JVal)
    (tm : Nat) (evs : List RunEvent) (s : RunState) (o : Outcome)
    (h : s.settled = some o) :
    (evs.foldl (runStep parse tm) s).settled = some o := by
  induction evs generalizing s with
  | nil => exact h
  | cons e evs ih =>
    exact ih _ (runStep_preserves_settled parse tm s o h e)

/-- C5: at most one terminal outcome per run. From a pending running
state, once the timeout fires the run is settled with the Timeout
failure and every later event sequence leaves that outcome; moreover a
later close notification leaves the state entirely unchanged (the close
handler returns early on isTimedOut). Likewise once a spawn failure is
reported the outcome stays the SpawnFailed failure over every later
event sequence. -/
theorem c5_terminal_exclusivity (parse : String → Option JVal) (tm : Nat)
    (s : RunState) (hpending : s.settled = none)
    (hnt : s.isTimedOut = false) (hta : s.timerActive = true) :
    ((runStep parse tm s .timeoutFire).settled = some (.timedOut tm)) ∧
    (∀ evs : List RunEvent,
      ((evs.foldl (runStep parse tm)
        (runStep parse tm s .timeoutFire)).settled = some (.timedOut tm))) ∧
    (∀ code, runStep parse tm (runStep parse tm s .timeoutFire)
      (.closeEv code) = runStep parse tm s .timeoutFire) ∧
    (∀ msg, (runStep parse tm s (.errorEv msg)).settled
      = some (.spawnFailed msg)) ∧
    (∀ msg, ∀ evs : List RunEvent,
      (evs.foldl (runStep parse tm)
        (runStep parse tm s (.errorEv msg))).settled
        = some (.spawnFailed msg)) := by
  have htimeout : (runStep parse tm s .timeoutFire).settled
      = some (.timedOut tm) := by
    simp only [runStep, hta, if_true]
    exact settle_of_none _ _ hpending
  have herror : ∀ msg, (runStep parse tm s (.errorEv msg)).settled
      = some (.spawnFailed msg) := by
    intro msg
    simp only [runStep, hnt]
    rw [if_neg (by simp)]
    exact settle_of_none _ _ hpending
  refine ⟨htimeout, ?_, ?_, herror, ?_⟩
  · intro evs
    exact runSteps_preserve_settled parse tm evs _ _ htimeout
  · intro code
    have hflag : (runStep parse tm s .timeoutFire).isTimedOut = true := by
      simp only [runStep, hta, if_true, settle_isTimedOut]
    exact runStep_close_of_timedOut parse tm _ code hflag
  · intro msg evs
    exact runSteps_preserve_settled parse tm evs _ _ (herror msg)

/-- Witness for C5 at the initial run state: the timeout fires, the run
settles on the Timeout failure, and a later clean-exit close
notification leaves that outcome. -/
theorem c5_terminal_exclusivity_witness :
    ((runStep jsonParseModel 120000 initRunState .timeoutFire).settled
      = some (.timedOut 120000)) ∧
    (([RunEvent.closeEv (some 0)].foldl (runStep jsonParseModel 120000)
      (runStep jsonParseModel 120000 initRunState .timeoutFire)).settled
      = some (.timedOut 120000)) :=
  ⟨(c5_terminal_exclusivity jsonParseModel 120000 initRunState
      rfl rfl rfl).1,
   (c5_terminal_exclusivity jsonParseModel 120000 initRunState
      rfl rfl rfl).2.1 [RunEvent.closeEv (some 0)]⟩

/-- Helper: after a successful unlink the path no longer exists. -/
theorem fsUnlink_ok_not_mem (unlinkFails : String → Bool)
    (fs : List String) (path : String) (fs2 : List String)
    (h : fsUnlink unlinkFails fs path = .ok fs2) : path ∉ fs2 := by
  unfold fsUnlink at h
  split at h
  · exact Except.noConfusion h
  · injection h with h2
    subst h2
    simp [List.mem_filter]

/-- Helper: the catch block leaves no script file behind whenever the
unlink itself does not fail. -/
theorem cleanupOnError_removes (unlinkFails : String → Bool)
    (scriptPath : String) (err : ExecError) (fs : List String)
    (h : unlinkFails scriptPath = false) :
    scriptPath ∉ (cleanupOnError unlinkFails scriptPath err fs).2 := by
  unfold cleanupOnError
  by_cases hex : fsExists fs scriptPath = true
  · rw [if_pos hex]
    simp only [fsUnlink, h, Bool.false_eq_true, if_false]
    simp [List.mem_filter]
  · rw [if_neg hex]
    intro hmem
    exact hex (by simpa [fsExists, List.contains, List.elem_eq_mem] using hmem)

/-- Helper: the catch block rethrows the triggering error whenever the
unlink does not fail (including when the file does not exist). -/
theorem cleanupOnError_fst_ok (unlinkFails : String → Bool)
    (scriptPath : String) (err : ExecError) (fs : List String)
    (h : unlinkFails scriptPath = false) :
    (cleanupOnError unlinkFails scriptPath err fs).1 = .error err := by
  unfold cleanupOnError
  by_cases hex : fsExists fs scriptPath = true
  · rw [if_pos hex]
    simp [fsUnlink, h]
  · rw [if_neg hex]

/-- Helper: when the file does not exist, the catch block rethrows the
triggering error untouched, whatever the unlink behavior would be. -/
theorem cleanupOnError_fst_absent (unlinkFails : String → Bool)
    (scriptPath : String) (err : ExecError) (fs : List String)
    (hex : fsExists fs scriptPath = false) :
    (cleanupOnError unlinkFails scriptPath err fs).1 = .error err := by
  unfold cleanupOnError
  rw [if_neg (by simp [hex])]

/-- Helper: when the file exists and the unlink fails, the catch block
propagates the unlink error instead of the triggering error. -/
theorem cleanupOnError_fst_shadow (unlinkFails : String → Bool)
    (scriptPath : String) (err : ExecError) (fs : List String)
    (h : unlinkFails scriptPath = true)
    (hex : fsExists fs scriptPath = true) :
    (cleanupOnError unlinkFails scriptPath err fs).1
      = .error (.unlinkFailed scriptPath) := by
  unfold cleanupOnError
  rw [if_pos hex]
  simp [fsUnlink, h]

/-- Helper: the just written script path exists. -/
theorem fsExists_fsWrite (fs : List String) (p : String) :
    fsExists (fsWrite fs p) p = true := by
  unfold fsWrite fsExists
  split
  · next hmem => simpa [fsExists, List.contains, List.elem_eq_mem] using hmem
  · simp

/-- C1: for every analysis and comparison request, whatever the outcome
of script generation and of the run (success, non-zero exit, timeout,
spawn failure or generation error), the temporary script file does not
exist when the operation returns or throws, provided deleting that path
does not itself fail. -/
theorem c1_tempfile_cleanup (unlinkFails : String → Bool)
    (scriptPath : String) (genA genC : Except ExecError String)
    (runA runC : Except ExecError (Sum JVal String))
    (fsA fsC : List String) (h : unlinkFails scriptPath = false) :
    scriptPath ∉ (executeAnalysisModel unlinkFails scriptPath
      genA runA fsA).2 ∧
    scriptPath ∉ (executeComparisonModel unlinkFails scriptPath
      genC runC fsC).2 := by
  constructor
  · unfold executeAnalysisModel
    cases genA with
    | error e => exact cleanupOnError_removes _ _ _ _ h
    | ok code =>
      cases runA with
      | error e => exact cleanupOnError_removes _ _ _ _ h
      | ok result =>
        simp only [fsUnlink, h, Bool.false_eq_true, if_false]
        simp [List.mem_filter]
  · unfold executeComparisonModel
    cases genC with
    | error e => exact cleanupOnError_removes _ _ _ _ h
    | ok code =>
      cases runC with
      | error e => exact cleanupOnError_removes _ _ _ _ h
      | ok result =>
        simp only [fsUnlink, h, Bool.false_eq_true, if_false]
        simp [List.mem_filter]

/-- Witness for C1: a concrete timed-out analysis run and a concrete
successful comparison run both leave no script file. -/
theorem c1_tempfile_cleanup_witness :
    ("a.py" : String) ∉ (executeAnalysisModel (fun _ => false) ("a.py")
      (.ok ("c")) (.error (.timedOut 120000)) []).2 ∧
    ("a.py" : String) ∉ (executeComparisonModel (fun _ => false) ("a.py")
      (.ok ("c")) (.ok (.inl .jNull)) []).2 :=
  ⟨(c1_tempfile_cleanup (fun _ => false) ("a.py") (.ok ("c")) (.ok ("c"))
      (.error (.timedOut 120000)) (.ok (.inl .jNull)) [] [] rfl).1,
   (c1_tempfile_cleanup (fun _ => false) ("a.py") (.ok ("c")) (.ok ("c"))
      (.error (.timedOut 120000)) (.ok (.inl .jNull)) [] [] rfl).2⟩

/-- Counterexample to C8 as stated: a timed-out analysis run whose
cleanup unlink fails propagates the unlink error, not the original
timeout error — the cleanup failure shadows the triggering error. -/
theorem c8_counterexample :
    (executeAnalysisModel (fun _ => true) ("p.py") (.ok ("c"))
      (.error (.timedOut 120000)) []).1 = .error (.unlinkFailed ("p.py")) ∧
    (Except.error (ExecError.unlinkFailed ("p.py")) :
      Except ExecError (Sum JVal String)) ≠ .error (.timedOut 120000) :=
  ⟨rfl, fun hcontr => ExecError.noConfusion (Except.error.inj hcontr)⟩

/-- C8 (amended): if script generation throws, the script file was never
written, so for a fresh script path the catch block finds no file and
the original error propagates whatever the unlink behavior would be; if
execution throws and the cleanup deletion succeeds, the original error
propagates unchanged (this also covers a generation throw with a stale
file present); but if the file exists and the cleanup deletion itself
fails, the deletion error propagates instead, replacing the original
error. Stated for both the analysis and the comparison executor. -/
theorem c8_cleanup_error_propagation (unlinkFails : String → Bool)
    (scriptPath code : String) (e : ExecError)
    (run : Except ExecError (Sum JVal String)) (fs0 : List String) :
    (scriptPath ∉ fs0 →
      (executeAnalysisModel unlinkFails scriptPath (.error e)
        run fs0).1 = .error e ∧
      (executeComparisonModel unlinkFails scriptPath (.error e)
        run fs0).1 = .error e) ∧
    (unlinkFails scriptPath = false →
      (executeAnalysisModel unlinkFails scriptPath (.error e)
        run fs0).1 = .error e ∧
      (executeComparisonModel unlinkFails scriptPath (.error e)
        run fs0).1 = .error e ∧
      (executeAnalysisModel unlinkFails scriptPath (.ok code)
        (.error e) fs0).1 = .error e ∧
      (executeComparisonModel unlinkFails scriptPath (.ok code)
        (.error e) fs0).1 = .error e) ∧
    (unlinkFails scriptPath = true →
      (executeAnalysisModel unlinkFails scriptPath (.ok code)
        (.error e) fs0).1 = .error (.unlinkFailed scriptPath) ∧
      (executeComparisonModel unlinkFails scriptPath (.ok code)
        (.error e) fs0).1 = .error (.unlinkFailed scriptPath)) := by
  refine ⟨?_, ?_, ?_⟩
  · intro habsent
    have hex : fsExists fs0 scriptPath = false := by
      simp [fsExists, List.contains, List.elem_eq_mem, habsent]
    constructor
    · show (cleanupOnError unlinkFails scriptPath e fs0).1 = .error e
      exact cleanupOnError_fst_absent _ _ _ _ hex
    · show (cleanupOnError unlinkFails scriptPath e fs0).1 = .error e
      exact cleanupOnError_fst_absent _ _ _ _ hex
  · intro h
    refine ⟨?_, ?_, ?_, ?_⟩
    · show (cleanupOnError unlinkFails scriptPath e fs0).1 = .error e
      exact cleanupOnError_fst_ok _ _ _ _ h
    · show (cleanupOnError unlinkFails scriptPath e fs0).1 = .error e
      exact cleanupOnError_fst_ok _ _ _ _ h
    · show (cleanupOnError unlinkFails scriptPath e
        (fsWrite fs0 scriptPath)).1 = .error e
      exact cleanupOnError_fst_ok _ _ _ _ h
    · show (cleanupOnError unlinkFails scriptPath e
        (fsWrite fs0 scriptPath)).1 = .error e
      exact cleanupOnError_fst_ok _ _ _ _ h
  · intro h
    constructor
    · show (cleanupOnError unlinkFails scriptPath e
        (fsWrite fs0 scriptPath)).1 = .error (.unlinkFailed scriptPath)
      exact cleanupOnError_fst_shadow _ _ _ _ h
        (fsExists_fsWrite fs0 scriptPath)
    · show (cleanupOnError unlinkFails scriptPath e
        (fsWrite fs0 scriptPath)).1 = .error (.unlinkFailed scriptPath)
      exact cleanupOnError_fst_shadow _ _ _ _ h
        (fsExists_fsWrite fs0 scriptPath)

/-- Witness for C8 (amended): a concrete generation throw on a fresh
path propagates the generation error even though deletion would fail,
and a concrete timed-out run with a succeeding unlink propagates the
original timeout error. -/
theorem c8_cleanup_error_propagation_witness :
    (executeAnalysisModel (fun _ => true) ("w.py")
      (.error (.genFailed ("boom"))) (.ok (.inl .jNull)) []).1
      = .error (.genFailed ("boom")) ∧
    (executeAnalysisModel (fun _ => false) ("w.py") (.ok ("c"))
      (.error (.timedOut 5)) []).1 = .error (.timedOut 5) :=
  ⟨((c8_cleanup_error_propagation (fun _ => true) ("w.py") ("c")
      (.genFailed ("boom")) (.ok (.inl .jNull)) []).1 (by simp)).1,
   ((c8_cleanup_error_propagation (fun _ => false) ("w.py") ("c")
      (.timedOut 5) (.ok (.inl .jNull)) []).2.1 rfl).2.2.1⟩

/-- Helper: every sheet the parser produces is capped at 5000 data rows,
and its rowCount records the actual row-list length. -/
theorem processSheetModel_spec (name : String)
    (jsonData : List (List CellValue)) (sheet : ExcelData)
    (h : processSheetModel name jsonData = some sheet) :
    sheet.rowCount ≤ chunkThreshold ∧
    sheet.rowCount = sheet.data.length := by
  unfold processSheetModel at h
  cases jsonData with
  | nil => exact Option.noConfusion h
  | cons headerRow rest =>
    simp only [Option.some.injEq] at h
    subst h
    refine ⟨?_, rfl⟩
    show (if rest.length > 5000 then rest.take 5000 else rest).length
      ≤ chunkThreshold
    unfold chunkThreshold
    split
    · simp [List.length_take]
    · omega

/-- C10: every Dataset the Excel parser produces has at most 5000 data
rows per sheet (rows past the first 5000 are discarded at parse time),
so every parsed sheet takes the non-chunked serializer branch and the
parsed upload always selects the standard 120 s analysis timeout. -/
theorem c10_parser_row_cap (id originalName : String)
    (workbook : List (String × List (List CellValue))) :
    (∀ sheet ∈ (processExcelFileModel id originalName workbook).sheets,
      sheet.rowCount ≤ chunkThreshold ∧
      sheet.rowCount = sheet.data.length ∧
      generateSheetConstruction sheet = .original sheet.data) ∧
    hasLargeSheets (processExcelFileModel id originalName workbook)
      = false ∧
    analysisTimeoutMs (processExcelFileModel id originalName workbook)
      = 120000 := by
  have hsheets : ∀ sheet ∈ (processExcelFileModel id originalName
      workbook).sheets, sheet.rowCount ≤ chunkThreshold := by
    intro sheet hmem
    simp only [processExcelFileModel, List.mem_filterMap] at hmem
    obtain ⟨nr, _hin, hps⟩ := hmem
    exact (processSheetModel_spec nr.1 nr.2 sheet hps).1
  have hno : hasLargeSheets (processExcelFileModel id originalName
      workbook) = false := by
    unfold hasLargeSheets
    rw [List.any_eq_false]
    intro sheet hmem
    have hb := hsheets sheet hmem
    simp only [decide_eq_true_eq]
    omega
  refine ⟨?_, hno, ?_⟩
  · intro sheet hmem
    refine ⟨hsheets sheet hmem, ?_, ?_⟩
    · simp only [processExcelFileModel, List.mem_filterMap] at hmem
      obtain ⟨nr, _hin, hps⟩ := hmem
      exact (processSheetModel_spec nr.1 nr.2 sheet hps).2
    · unfold generateSheetConstruction
      rw [if_neg (by have := hsheets sheet hmem; omega)]
      rfl
  · unfold analysisTimeoutMs
    rw [hno]
    rfl

/-- Witness for C10 at a concrete one-sheet workbook: the parsed sheet
is below the threshold and takes the original serializer branch. -/
theorem c10_parser_row_cap_witness :
    ({ sheetName := "Sheet1", headers := ["h"],
       data := [[CellValue.vNum 1]], rowCount := 1,
       columnCount := 1 } : ExcelData).rowCount ≤ chunkThreshold ∧
    ({ sheetName := "Sheet1", headers := ["h"],
       data := [[CellValue.vNum 1]], rowCount := 1,
       columnCount := 1 } : ExcelData).rowCount
      = ({ sheetName := "Sheet1", headers := ["h"],
           data := [[CellValue.vNum 1]], rowCount := 1,
           columnCount := 1 } : ExcelData).data.length ∧
    generateSheetConstruction
      { sheetName := "Sheet1", headers := ["h"],
        data := [[CellValue.vNum 1]], rowCount := 1, columnCount := 1 }
      = .original [[CellValue.vNum 1]] :=
  (c10_parser_row_cap ("i") ("f.xlsx")
    [("Sheet1", [[CellValue.vStr ("h")], [CellValue.vNum 1]])]).1
    { sheetName := "Sheet1", headers := ["h"],
      data := [[CellValue.vNum 1]], rowCount := 1, columnCount := 1 }
    (by decide)
